import Mathlib

/-!
Verification of the NAFF pagination extension (naff/ext/paginators.py).

The file shallowly embeds the data model and operations of the Paginator
class and its Timeout watchdog.  Python machine behaviour is made explicit:
list indexing is pyGet (negative indices wrap, out of range is none),
string truthiness is pyStrTruthy, fallible operations return a
PaginatorState paired with an Except or an Option, and the custom id
format "uuid|role" is represented as the pair (uuid, role).
-/

namespace NAFF

/-- Python list indexing: nonnegative indices count from the front,
negative indices count from the back, and an out of range index yields
none (an IndexError in Python). -/
def pyGet {α : Type} (xs : List α) (i : Int) : Option α :=
  if 0 ≤ i then xs[i.toNat]?
  else if 0 ≤ (xs.length : Int) + i then xs[((xs.length : Int) + i).toNat]?
  else none

/-- Python truthiness of an optional string: None and the empty string are
falsy, every other string is truthy. -/
def pyStrTruthy : Option String → Bool
  | none => false
  | some s => decide (s ≠ "")

/-- Python rendering of an optional string inside an f-string: None prints
as the text "None". -/
def optStr : Option String → String
  | none => "None"
  | some s => s

/-- Value of a non-empty all-digit character list, most significant digit
first. -/
def pyDigitVal (cs : List Char) : Option Nat :=
  if cs ≠ [] && cs.all Char.isDigit then
    some (cs.foldl (fun n c => 10 * n + (c.toNat - 48)) 0)
  else none

/-- Model of the Python built-in int() on a string: an optional sign
followed by decimal digits parses to the signed value, anything else is a
ValueError (none). -/
def pyInt (s : String) : Option Int :=
  match s.toList with
  | '-' :: cs => (pyDigitVal cs).map (fun n => -(n : Int))
  | '+' :: cs => (pyDigitVal cs).map (fun n => (n : Int))
  | cs => (pyDigitVal cs).map (fun n => (n : Int))

/-- Decidable equality of Except values with decidable components. -/
instance instDecEqExcept {ε α : Type} [DecidableEq ε] [DecidableEq α] :
    DecidableEq (Except ε α) := fun a b =>
  match a, b with
  | .error e, .error f =>
    if h : e = f then isTrue (congrArg Except.error h)
    else isFalse (fun hh => h (Except.error.inj hh))
  | .error _, .ok _ => isFalse (fun hh => Except.noConfusion hh)
  | .ok _, .error _ => isFalse (fun hh => Except.noConfusion hh)
  | .ok a, .ok b =>
    if h : a = b then isTrue (congrArg Except.ok h)
    else isFalse (fun hh => h (Except.ok.inj hh))

/-- Model of the Python standard library call textwrap.shorten with the
placeholder "..." as used by Page.get_summary: collapse whitespace runs,
return the collapsed text when it fits in the width, otherwise keep the
longest prefix of whole words that fits together with the placeholder. -/
def shorten (s : String) (width : Nat) : String :=
  let ws := (s.split Char.isWhitespace).filter (fun w => w ≠ "")
  let joined := String.intercalate " " ws
  if joined.length ≤ width then joined
  else
    let kept := (ws.foldl (fun acc w =>
      let cand := if acc.1 = "" then w else acc.1 ++ " " ++ w
      if acc.2 && decide ((cand ++ "...").length ≤ width) then (cand, true)
      else (acc.1, false)) ("", true)).1
    if kept = "" then "..." else kept ++ "..."

/-- Embedding of the Page value object of paginators.py. -/
structure Page where
  content : String
  title : Option String := none
  prefixText : String := ""
  suffixText : String := ""
  deriving DecidableEq, Repr

/-- Embedding of the slice of the naff Embed object that paginators.py
reads and writes: title, description, footer text and colour. -/
structure EmbedM where
  title : Option String := none
  description : Option String := none
  footer : Option String := none
  color : Option Nat := none
  deriving DecidableEq, Repr

/-- Page.get_summary: the title when truthy, otherwise the content
shortened to 40 characters. -/
def Page.get_summary (pg : Page) : String :=
  if pyStrTruthy pg.title then optStr pg.title else shorten pg.content 40

/-- Page.to_embed: the page becomes an embed whose description is
prefix, content and suffix joined by newlines, carrying the page title. -/
def Page.to_embed (pg : Page) : EmbedM :=
  { description := some (pg.prefixText ++ "\n" ++ pg.content ++ "\n" ++ pg.suffixText),
    title := pg.title }

/-- A entry of Paginator.pages: either a Page or a pre-rendered embed. -/
inductive PageOrEmbed where
  | page (pg : Page)
  | embed (e : EmbedM)
  deriving DecidableEq, Repr

/-- The label text used for a pages entry in the select menu: get_summary
for a Page and the raw title for a pre-rendered embed (a missing title
prints as "None", as a Python f-string does). -/
def PageOrEmbed.summary_label : PageOrEmbed → String
  | .page pg => pg.get_summary
  | .embed e => optStr e.title

/-- State of a Timeout watchdog task as the main model sees it: the run
flag and whether its ping event is currently set. -/
structure TimeoutTask where
  run : Bool := true
  ping : Bool := false
  deriving DecidableEq, Repr

/-- Embedding of the mutable attrs fields of the Paginator class, with the
message handle, watchdog task and author id modelled as options (the
MISSING sentinel becomes none) and the client connection abstracted away. -/
structure PaginatorState where
  page_index : Int := 0
  pages : List PageOrEmbed := []
  timeout_interval : Int := 0
  has_callback : Bool := false
  show_first_button : Bool := true
  show_back_button : Bool := true
  show_next_button : Bool := true
  show_last_button : Bool := true
  show_callback_button : Bool := false
  show_select_menu : Bool := false
  first_button_emoji : String := "⏮️"
  back_button_emoji : String := "⬅️"
  next_button_emoji : String := "➡️"
  last_button_emoji : String := "⏩"
  callback_button_emoji : String := "✅"
  wrong_user_message : String := "This paginator is not for you"
  default_title : Option String := none
  default_color : Nat := 0x5865F2
  default_button_color : Nat := 1
  uuid : String := ""
  message : Option Nat := none
  timeout_task : Option TimeoutTask := none
  author_id : Option Nat := none
  deriving DecidableEq, Repr

/-- A control produced by create_components; the custom id string
"uuid|role" is represented by the pair (uuid, role). -/
inductive Control where
  | selectMenu (options : List (String × String)) (custom_id : String × String)
      (placeholder : String) (maxValues : Nat) (disabled : Bool)
  | button (style : Nat) (emoji : String) (custom_id : String × String) (disabled : Bool)
  deriving DecidableEq, Repr

/-- Role suffix of the custom id of a control. -/
def Control.role : Control → String
  | .selectMenu _ cid _ _ _ => cid.2
  | .button _ _ cid _ => cid.2

/-- Disabled flag of a control. -/
def Control.isDisabled : Control → Bool
  | .selectMenu _ _ _ _ d => d
  | .button _ _ _ d => d

/-- The option list of the select menu built by create_components: one
option per page, labelled with the 1-based position and the page summary,
valued with the decimal 0-based index. -/
def select_options (p : PaginatorState) : List (String × String) :=
  p.pages.enum.map fun ip => (toString (ip.1 + 1) ++ " " ++ ip.2.summary_label, toString ip.1)

/-- The five navigation buttons of create_components in source order
(first, back, callback, next, last), each present only when its show flag
is set, with the disabled conditions of the source: disable forces every
button off, first and back are additionally disabled at index 0, next and
last when the index is at least the page count minus one. -/
def nav_buttons (p : PaginatorState) (disable : Bool) : List Control :=
  (if p.show_first_button then
    [Control.button p.default_button_color p.first_button_emoji (p.uuid, "first")
      (disable || decide (p.page_index = 0))] else [])
  ++ (if p.show_back_button then
    [Control.button p.default_button_color p.back_button_emoji (p.uuid, "back")
      (disable || decide (p.page_index = 0))] else [])
  ++ (if p.show_callback_button then
    [Control.button p.default_button_color p.callback_button_emoji (p.uuid, "callback")
      disable] else [])
  ++ (if p.show_next_button then
    [Control.button p.default_button_color p.next_button_emoji (p.uuid, "next")
      (disable || decide ((p.pages.length : Int) - 1 ≤ p.page_index))] else [])
  ++ (if p.show_last_button then
    [Control.button p.default_button_color p.last_button_emoji (p.uuid, "last")
      (disable || decide ((p.pages.length : Int) - 1 ≤ p.page_index))] else [])

/-- Paginator.create_components before row spreading: an optional select
menu (whose placeholder reads the current page, an out of range index
being a Python IndexError, hence none) followed by the navigation
buttons. -/
def create_components (p : PaginatorState) (disable : Bool) : Option (List Control) :=
  if p.show_select_menu then
    match pyGet p.pages p.page_index with
    | none => none
    | some current =>
      some (Control.selectMenu (select_options p) (p.uuid, "select")
        (toString (p.page_index + 1) ++ " " ++ current.summary_label) 1 disable
        :: nav_buttons p disable)
  else some (nav_buttons p disable)

/-- Helper for spread_rows: collect controls into the current row while
capacity remains, flushing a full row. -/
def chunk5Aux : List Control → Nat → List Control → List (List Control)
  | [], _, acc => if acc.isEmpty then [] else [acc.reverse]
  | c :: cs, Nat.succ k, acc => chunk5Aux cs k (c :: acc)
  | c :: cs, 0, acc => acc.reverse :: chunk5Aux cs 4 [c]

/-- Modelled from the spec: the naff helper spread_to_rows (repository
code outside src) groups the produced controls into action rows of at
most five controls each, preserving order. -/
def spread_rows (cs : List Control) : List (List Control) :=
  chunk5Aux cs 5 []

/-- The footer text written by to_dict. -/
def footer_text (p : PaginatorState) : String :=
  "Page " ++ toString (p.page_index + 1) ++ "/" ++ toString p.pages.length

/-- The embed half of Paginator.to_dict: fetch the current page (an out
of range index is a Python IndexError, hence none); a Page is converted
by to_embed and receives the default title when its own title is falsy
and a default title is truthy; then, for both kinds, the footer is set to
the page counter only when no footer is present, and the default colour
is applied only when no colour is present. -/
def rendered_embed (p : PaginatorState) : Option EmbedM :=
  match pyGet p.pages p.page_index with
  | none => none
  | some pg =>
    let e := match pg with
      | .page page =>
        let e0 := page.to_embed
        if !pyStrTruthy e0.title && pyStrTruthy p.default_title then
          { e0 with title := p.default_title }
        else e0
      | .embed e0 => e0
    let e1 := if e.footer.isNone then { e with footer := some (footer_text p) } else e
    if e1.color.isNone then some { e1 with color := some p.default_color } else some e1

/-- The outbound message payload dictionary built by to_dict. -/
structure Payload where
  embeds : List EmbedM
  components : List (List Control)
  deriving DecidableEq, Repr

/-- Paginator.to_dict: one embed for the current page plus the current
(non-disabled) control rows; none models the IndexError raised on an out
of range page index. -/
def to_dict (p : PaginatorState) : Option Payload :=
  match rendered_embed p, create_components p false with
  | some e, some cs => some { embeds := [e], components := spread_rows cs }
  | _, _ => none

/-- Errors surfaced by the lifecycle operations.  renderError stands for
the failure of rendering with an unusable page set (the spec taxonomy
name for the IndexError raised by to_dict), stateError for operating on a
paginator with no message (the spec taxonomy name for touching the
MISSING message sentinel), valueError and indexError for the Python
errors of int() and of reading a missing select value. -/
inductive PagError where
  | renderError
  | stateError
  | valueError
  | indexError
  deriving DecidableEq, Repr

/-- Observable responses of the interaction routing. -/
inductive Effect where
  | editOrigin (payload : Payload)
  | ephemeral (msg : String)
  | deferEdit
  | callbackResult
  deriving DecidableEq, Repr

/-- Paginator.send: render first (failing on an empty or unusable page
set), then record the message handle and the author id from the context,
and start a watchdog task only when the timeout interval exceeds one. -/
def send (p : PaginatorState) (mid author : Nat) :
    Except PagError (PaginatorState × Payload) :=
  match to_dict p with
  | none => .error .renderError
  | some d =>
    if 1 < p.timeout_interval then
      .ok
        ({ p with
           message := some mid, author_id := some author, timeout_task := some {} },
         d)
    else .ok ({ p with message := some mid, author_id := some author }, d)

/-- Paginator.reply: same state transition as send, the transport
difference (reply versus send) being outside the model. -/
def reply (p : PaginatorState) (mid author : Nat) :
    Except PagError (PaginatorState × Payload) :=
  match to_dict p with
  | none => .error .renderError
  | some d =>
    if 1 < p.timeout_interval then
      .ok
        ({ p with
           message := some mid, author_id := some author, timeout_task := some {} },
         d)
    else .ok ({ p with message := some mid, author_id := some author }, d)

/-- Paginator.update: edit the live message with the current rendering.
Modelled from the spec: touching the MISSING message sentinel before any
send is a StateError (the sentinel class lives outside src); with a
message present, a failing rendering surfaces as the renderError of
to_dict. -/
def update (p : PaginatorState) : Except PagError Payload :=
  match p.message with
  | none => .error .stateError
  | some _ =>
    match to_dict p with
    | none => .error .renderError
    | some d => .ok d

/-- The watchdog mutation of Paginator.stop: when a watchdog task
exists, clear its run flag and set its ping event. -/
def stop_task_update (p : PaginatorState) : PaginatorState :=
  match p.timeout_task with
  | some t => { p with timeout_task := some { t with run := false, ping := true } }
  | none => p

/-- The edit call of Paginator.stop: edit the live message with fully
disabled components.  Modelled from the spec: editing with no message
sent is a StateError (the MISSING sentinel class lives outside src). -/
def stop_edit (p1 : PaginatorState) : Except PagError (List (List Control)) :=
  match p1.message with
  | none => .error .stateError
  | some _ =>
    match create_components p1 true with
    | none => .error .renderError
    | some cs => .ok (spread_rows cs)

/-- Paginator.stop: mutate the watchdog task, then perform the disable
edit on the live message. -/
def stop (p : PaginatorState) : PaginatorState × Except PagError (List (List Control)) :=
  (stop_task_update p, stop_edit (stop_task_update p))

/-- An interaction context as _on_button reads it: the triggering user
id, the custom id split into its uuid and role halves, and the selected
values. -/
structure Ctx where
  author : Nat
  custom_id : String × String
  values : List String := []
  deriving DecidableEq, Repr

/-- The index computed by the role dispatch of _on_button: first jumps to
0, last to the page count minus one, next and back move only inside the
bounds, select parses the first selected value with no bounds check
(failing like Python int() on a malformed value and like values[0] on an
empty list), and any other role leaves the index alone. -/
def nav_index (p1 : PaginatorState) (role : String) (values : List String) :
    Except PagError Int :=
  if role = "first" then .ok 0
  else if role = "last" then .ok ((p1.pages.length : Int) - 1)
  else if role = "next" then
    .ok (if p1.page_index + 1 < (p1.pages.length : Int) then p1.page_index + 1
         else p1.page_index)
  else if role = "back" then
    .ok (if 0 ≤ p1.page_index - 1 then p1.page_index - 1 else p1.page_index)
  else if role = "select" then
    match values.head? with
    | none => .error .indexError
    | some s =>
      match pyInt s with
      | none => .error .valueError
      | some v => .ok v
  else .ok p1.page_index

/-- The trailing edit_origin call of _on_button: re-render and replace
the originating message; the state mutation survives even when rendering
fails (Python raises after the assignment). -/
def edit_origin (p : PaginatorState) : PaginatorState × Except PagError Effect :=
  match to_dict p with
  | none => (p, .error .renderError)
  | some d => (p, .ok (.editOrigin d))

/-- The watchdog ping at the start of the authorized branch of
_on_button: when a watchdog task exists, set its ping event. -/
def ping_task (p : PaginatorState) : PaginatorState :=
  { p with timeout_task := p.timeout_task.map fun t => { t with ping := true } }

/-- Paginator._on_button: authorize against the stored author id; a
mismatch sends the wrong user message ephemerally when it is non-empty
and otherwise defers in place, with no state change.  On a match, ping
the watchdog if one exists, dispatch on the role (a configured callback
owns the response and short-circuits), then edit the origin with the
fresh rendering. -/
def on_button (p : PaginatorState) (ctx : Ctx) : PaginatorState × Except PagError Effect :=
  if p.author_id = some ctx.author then
    if ctx.custom_id.2 = "callback" ∧ (ping_task p).has_callback then
      (ping_task p, .ok .callbackResult)
    else
      match nav_index (ping_task p) ctx.custom_id.2 ctx.values with
      | .error e => (ping_task p, .error e)
      | .ok i => edit_origin { ping_task p with page_index := i }
  else
    if p.wrong_user_message = "" then (p, .ok .deferEdit)
    else (p, .ok (.ephemeral p.wrong_user_message))

/-- One resumption of the watchdog wait of Timeout.__call__: either the
timeout elapsed with no ping, or the ping event was set during the wait
by an interaction (run stays true) or by stop (run becomes false). -/
inductive WaitOutcome where
  | timedOut
  | pinged (newRun : Bool)
  deriving DecidableEq, Repr

/-- The number of disable-edits performed by the loop of
Timeout.__call__, driven by a trace of wait outcomes: the loop exits at
once when run is false; a timeout edits the message (when one exists)
and returns; a ping clears the event and re-checks run. -/
def timeout_edits (hasMsg : Bool) : Bool → List WaitOutcome → Nat
  | false, _ => 0
  | true, [] => 0
  | true, WaitOutcome.timedOut :: _ => if hasMsg then 1 else 0
  | true, WaitOutcome.pinged newRun :: rest => timeout_edits hasMsg newRun rest

/-- A store of asyncio events, identified by numbers. -/
structure EventStore where
  isSet : Nat → Bool

/-- Setting one event in the store. -/
def EventStore.set (st : EventStore) (e : Nat) : EventStore :=
  ⟨fun i => if i = e then true else st.isSet i⟩

/-- The single asyncio.Event allocated when the class body of Timeout is
evaluated: the annotation default of the ping field is an expression run
once at class definition time, and attrs hands the resulting object to
every instance that does not receive an explicit ping. -/
def timeoutClassPing : Nat := 0

/-- A Timeout instance at the event-identity level: run flag and the
identity of its ping event, which defaults to the class-level event. -/
structure TimeoutObj where
  paginator : Nat
  run : Bool := true
  ping : Nat := timeoutClassPing
  deriving DecidableEq, Repr

/-- Timeout(paginator) as called by send and reply: only the paginator is
passed, so run and ping take their defaults. -/
def mkTimeout (pag : Nat) : TimeoutObj := { paginator := pag }

/-- One step of the accumulation loop of create_from_list: an entry that
still fits (buffer length plus newline plus entry length within the page
size) is appended with a trailing newline; otherwise the buffer is
flushed as a Page and the buffer restarts empty. -/
def create_from_list_step (page_size : Int) (pre suf : String)
    (acc : List Page × String) (entry : String) : List Page × String :=
  if (acc.2.length : Int) + (("\n" ++ entry).length : Int) ≤ page_size then
    (acc.1, acc.2 ++ entry ++ "\n")
  else
    (acc.1 ++ [{ content := acc.2, prefixText := pre, suffixText := suf }], "")

/-- The page list built by Paginator.create_from_list: fold the entries
through the accumulation step and flush a non-empty trailing buffer. -/
def create_from_list_pages (content : List String) (pre suf : String)
    (page_size : Int) : List Page :=
  let r := content.foldl (create_from_list_step page_size pre suf) ([], "")
  if r.2 ≠ "" then r.1 ++ [{ content := r.2, prefixText := pre, suffixText := suf }]
  else r.1

/-- Paginator.create_from_list: wrap the built pages into a fresh
paginator with the given timeout interval. -/
def create_from_list (content : List String) (pre suf : String)
    (page_size timeout : Int) : PaginatorState :=
  { pages := (create_from_list_pages content pre suf page_size).map PageOrEmbed.page,
    timeout_interval := timeout }

/-- The single page actually produced by the list factory at page size 10
on the entries aaa, bbb, ccccccccc. -/
def droppedResult : Page := { content := "aaa\nbbb\n" }

/-- A two-page paginator attached to author 1 and message 99. -/
def twoPagePag : PaginatorState :=
  { pages := [PageOrEmbed.page { content := "a" }, PageOrEmbed.page { content := "b" }],
    author_id := some 1, message := some 99, uuid := "u" }

/-- A select interaction by the owner carrying the out of range value 5. -/
def selectCtx : Ctx := { author := 1, custom_id := ("u", "select"), values := ["5"] }

/-- A next interaction by the owner. -/
def nextCtx : Ctx := { author := 1, custom_id := ("u", "next") }

/-- An interaction by a user who is not the owner. -/
def strangerCtx : Ctx := { author := 2, custom_id := ("u", "next") }

/-- A one-page paginator whose timeout interval is exactly 1. -/
def intervalOnePag : PaginatorState :=
  { pages := [PageOrEmbed.page { content := "x" }], timeout_interval := 1 }

/-- A one-page paginator whose timeout interval is 2. -/
def intervalTwoPag : PaginatorState :=
  { pages := [PageOrEmbed.page { content := "x" }], timeout_interval := 2 }

/-- The state produced by sending intervalTwoPag as message 7 for author 42. -/
def sentIntervalTwoPag : PaginatorState :=
  { intervalTwoPag with message := some 7, author_id := some 42, timeout_task := some {} }

/-- The payload produced by sending intervalTwoPag. -/
def sentIntervalTwoPayload : Payload := (to_dict intervalTwoPag).getD { embeds := [], components := [] }

/-- A paginator whose only page is a pre-rendered embed that already has
a footer. -/
def preFooterPag : PaginatorState :=
  { pages := [PageOrEmbed.embed { description := some "content", footer := some "original footer" }] }

/-- A paginator whose only page is a Page, with a default title configured. -/
def pageWithDefaultsPag : PaginatorState :=
  { pages := [PageOrEmbed.page { content := "hello" }], default_title := some "T" }

/-- A two-page paginator whose index sits beyond the last page. -/
def outOfRangePag : PaginatorState :=
  { pages := [PageOrEmbed.page { content := "a" }, PageOrEmbed.page { content := "b" }],
    page_index := 5 }

/-- A two-page paginator in its initial position. -/
def flagDemoPag : PaginatorState :=
  { pages := [PageOrEmbed.page { content := "a" }, PageOrEmbed.page { content := "b" }],
    uuid := "u" }

/-- The next button of flagDemoPag with the global disable flag off. -/
def flagDemoNextBtn : Control := Control.button 1 "➡️" ("u", "next") false

/-- A paginator with no pages but a live message handle. -/
def emptyPagesPag : PaginatorState := { pages := [], message := some 5 }

/-- A one-page paginator that was never sent: no message handle. -/
def unsentPag : PaginatorState := { pages := [PageOrEmbed.page { content := "x" }] }

/-- A sent paginator with a live message and a running watchdog task. -/
def runningWatchdogPag : PaginatorState :=
  { pages := [PageOrEmbed.page { content := "x" }], message := some 3,
    timeout_task := some {} }

/-! ## Helper lemmas -/

lemma edit_origin_fst (p : PaginatorState) : (edit_origin p).1 = p := by
  unfold edit_origin
  cases h : to_dict p <;> rfl

lemma mem_if_singleton {α : Type} {c x : α} {b : Bool}
    (h : c ∈ if b then [x] else ([] : List α)) : c = x := by
  cases b <;> simp_all

lemma pyGet_nil {α : Type} (i : Int) : pyGet ([] : List α) i = none := by
  unfold pyGet
  split_ifs with h1 h2 <;> simp_all

lemma stop_task_update_message (p : PaginatorState) :
    (stop_task_update p).message = p.message := by
  unfold stop_task_update
  cases p.timeout_task <;> rfl

lemma timeout_edits_stopped (hasMsg : Bool) (tr : List WaitOutcome) :
    timeout_edits hasMsg false tr = 0 := by
  simp [timeout_edits]

lemma timeout_edits_ping_stop (hasMsg : Bool) (rest : List WaitOutcome) :
    timeout_edits hasMsg true (WaitOutcome.pinged false :: rest) = 0 := by
  simp [timeout_edits, timeout_edits_stopped]

lemma nav_index_in_range (q : PaginatorState) (role : String) (values : List String)
    (hne : q.pages ≠ []) (h0 : 0 ≤ q.page_index)
    (h1 : q.page_index < (q.pages.length : Int)) (i : Int)
    (hsel : ∀ s v, role = "select" → values.head? = some s → pyInt s = some v →
      0 ≤ v ∧ v < (q.pages.length : Int))
    (hok : nav_index q role values = Except.ok i) :
    0 ≤ i ∧ i < (q.pages.length : Int) := by
  have hlen : 0 < (q.pages.length : Int) := by
    have := List.length_pos.mpr hne
    exact_mod_cast this
  unfold nav_index at hok
  by_cases hf : role = "first"
  · rw [if_pos hf] at hok
    injection hok with h
    omega
  rw [if_neg hf] at hok
  by_cases hl : role = "last"
  · rw [if_pos hl] at hok
    injection hok with h
    omega
  rw [if_neg hl] at hok
  by_cases hn : role = "next"
  · rw [if_pos hn] at hok
    injection hok with h
    split at h <;> omega
  rw [if_neg hn] at hok
  by_cases hb : role = "back"
  · rw [if_pos hb] at hok
    injection hok with h
    split at h <;> omega
  rw [if_neg hb] at hok
  by_cases hs : role = "select"
  · rw [if_pos hs] at hok
    cases hh : values.head? with
    | none =>
      rw [hh] at hok
      simp at hok
    | some s =>
      rw [hh] at hok
      cases hp : pyInt s with
      | none =>
        simp [hp] at hok
      | some v =>
        simp only [hp, Except.ok.injEq] at hok
        have := hsel s v hs hh hp
        omega
  rw [if_neg hs] at hok
  injection hok with h
  omega

lemma mem_nav_buttons {p : PaginatorState} {disable : Bool} {c : Control}
    (h : c ∈ nav_buttons p disable) :
    c = Control.button p.default_button_color p.first_button_emoji (p.uuid, "first")
          (disable || decide (p.page_index = 0)) ∨
    c = Control.button p.default_button_color p.back_button_emoji (p.uuid, "back")
          (disable || decide (p.page_index = 0)) ∨
    c = Control.button p.default_button_color p.callback_button_emoji (p.uuid, "callback")
          disable ∨
    c = Control.button p.default_button_color p.next_button_emoji (p.uuid, "next")
          (disable || decide ((p.pages.length : Int) - 1 ≤ p.page_index)) ∨
    c = Control.button p.default_button_color p.last_button_emoji (p.uuid, "last")
          (disable || decide ((p.pages.length : Int) - 1 ≤ p.page_index)) := by
  unfold nav_buttons at h
  simp only [List.mem_append] at h
  rcases h with (((h | h) | h) | h) | h
  · exact Or.inl (mem_if_singleton h)
  · exact Or.inr (Or.inl (mem_if_singleton h))
  · exact Or.inr (Or.inr (Or.inl (mem_if_singleton h)))
  · exact Or.inr (Or.inr (Or.inr (Or.inl (mem_if_singleton h))))
  · exact Or.inr (Or.inr (Or.inr (Or.inr (mem_if_singleton h))))

/-! ## Claim theorems -/

/-- Claim C1 (code bug): the list factory evaluated at page size 10 on the
entries aaa, bbb, ccccccccc produces a single page whose content is
"aaa\nbbb\n"; the entry ccccccccc that triggered the flush is dropped,
because the source restarts the buffer empty instead of seeding it with
the entry, so the two pages promised by the claim never materialise. -/
theorem create_from_list_drops_entry :
    (create_from_list ["aaa", "bbb", "ccccccccc"] "" "" 10 0).pages =
      [PageOrEmbed.page droppedResult] ∧
    (create_from_list ["aaa", "bbb", "ccccccccc"] "" "" 10 0).pages.length ≠ 2 := by
  decide

/-- Claim C2 counterexample: routing an owner select interaction whose
value is 5 on a two-page paginator sets the page index to 5, violating
the invariant that the index stays below the page count. -/
theorem select_breaks_index_invariant :
    (on_button twoPagePag selectCtx).1.page_index = 5 ∧
    ¬((on_button twoPagePag selectCtx).1.page_index <
      ((on_button twoPagePag selectCtx).1.pages.length : Int)) := by
  decide

/-- Claim C3 counterexample: sending a paginator whose idle timeout is
exactly 1 starts no watchdog task at all, because the source only starts
one when the interval is strictly greater than 1; hence no idle edit can
ever happen for this paginator. -/
theorem send_interval_one_starts_no_watchdog :
    (send intervalOnePag 7 42).toOption.map (fun r => r.1.timeout_task) = some none := by
  decide

/-- Claim C4 counterexample: rendering a pre-rendered embed page that
already carries a footer keeps that footer instead of overriding it with
the page counter. -/
theorem embed_footer_not_overridden :
    (rendered_embed preFooterPag).map EmbedM.footer = some (some "original footer") ∧
    footer_text preFooterPag = "Page 1/1" ∧
    some "original footer" ≠ some (footer_text preFooterPag) := by
  decide

/-- Claim C6 counterexample: with the global disable flag off, a two-page
paginator whose index is 5 renders next and last disabled (the source
compares with at-least) although the index differs from the page count
minus one, refuting the stated if-and-only-if for arbitrary indices. -/
theorem next_disabled_beyond_last_page :
    (create_components outOfRangePag false).map (List.map Control.isDisabled) =
      some [false, false, true, true] ∧
    outOfRangePag.page_index ≠ (outOfRangePag.pages.length : Int) - 1 := by
  decide

/-- Claim C4 amended: the rendered embed always receives the page counter
footer when the page has no footer of its own, but an existing footer of
a pre-rendered embed is preserved, not overridden; a Page page (whose
fresh embed never has a footer) therefore always shows the counter.  The
default title is applied only to a Page whose own title is falsy, and
the default colour only when no colour is present. -/
theorem rendered_embed_defaults (p : PaginatorState) :
    (∀ e0, pyGet p.pages p.page_index = some (PageOrEmbed.embed e0) →
      rendered_embed p =
        some { title := e0.title, description := e0.description,
               footer := some (e0.footer.getD (footer_text p)),
               color := some (e0.color.getD p.default_color) }) ∧
    (∀ pg, pyGet p.pages p.page_index = some (PageOrEmbed.page pg) →
      rendered_embed p =
        some { title := if !pyStrTruthy pg.title && pyStrTruthy p.default_title
                        then p.default_title else pg.title,
               description := some (pg.prefixText ++ "\n" ++ pg.content ++ "\n" ++ pg.suffixText),
               footer := some (footer_text p),
               color := some p.default_color }) := by
  constructor
  · intro e0 hg
    unfold rendered_embed
    rw [hg]
    obtain ⟨et, ed, ef, ec⟩ := e0
    cases ef <;> cases ec <;> simp
  · intro pg hg
    unfold rendered_embed
    rw [hg]
    by_cases ht : (!pyStrTruthy pg.title && pyStrTruthy p.default_title) = true <;>
      simp [Page.to_embed, ht]

/-- Witness for rendered_embed_defaults: a Page page with no title of its
own and a configured default title gets the default title, the counter
footer and the default colour. -/
theorem rendered_embed_defaults_witness :
    rendered_embed pageWithDefaultsPag =
      some { title := some "T", description := some "\nhello\n",
             footer := some "Page 1/1", color := some 0x5865F2 } :=
  (rendered_embed_defaults pageWithDefaultsPag).2 { content := "hello" } (by decide)

/-- Claim C6 amended: in every successful control layout, the first and
back buttons are disabled exactly when the global flag is set or the
index is 0, the next and last buttons exactly when the global flag is set
or the index is at least the page count minus one (the source compares
with at-least, which agrees with the equality of the claim only while the
index invariant holds), and a set global flag disables every control. -/
theorem create_components_disable_flags (p : PaginatorState) (disable : Bool)
    (out : List Control) (hout : create_components p disable = some out) :
    ∀ c ∈ out,
      ((c.role = "first" ∨ c.role = "back") →
        c.isDisabled = (disable || decide (p.page_index = 0))) ∧
      ((c.role = "next" ∨ c.role = "last") →
        c.isDisabled = (disable || decide ((p.pages.length : Int) - 1 ≤ p.page_index))) ∧
      (disable = true → c.isDisabled = true) := by
  intro c hc
  have button_case : c ∈ nav_buttons p disable →
      ((c.role = "first" ∨ c.role = "back") →
        c.isDisabled = (disable || decide (p.page_index = 0))) ∧
      ((c.role = "next" ∨ c.role = "last") →
        c.isDisabled = (disable || decide ((p.pages.length : Int) - 1 ≤ p.page_index))) ∧
      (disable = true → c.isDisabled = true) := by
    intro hmem
    rcases mem_nav_buttons hmem with h | h | h | h | h <;> subst h <;>
      refine ⟨fun hh => ?_, fun hh => ?_, fun hh => ?_⟩ <;>
      first
        | rfl
        | (subst hh; rfl)
        | (rcases hh with hh | hh <;> simp [Control.role] at hh)
  unfold create_components at hout
  by_cases hs : p.show_select_menu
  · rw [if_pos hs] at hout
    cases hg : pyGet p.pages p.page_index with
    | none =>
      rw [hg] at hout
      cases hout
    | some current =>
      rw [hg] at hout
      injection hout with hout
      subst hout
      rcases List.mem_cons.mp hc with hceq | hcmem
      · subst hceq
        refine ⟨fun hh => ?_, fun hh => ?_, fun hh => ?_⟩
        · rcases hh with hh | hh <;> simp [Control.role] at hh
        · rcases hh with hh | hh <;> simp [Control.role] at hh
        · subst hh
          rfl
      · exact button_case hcmem
  · rw [if_neg hs] at hout
    injection hout with hout
    subst hout
    exact button_case hc

/-- Witness for create_components_disable_flags: the next button of a
fresh two-page paginator is enabled while the index 0 is not at the last
page. -/
theorem create_components_disable_flags_witness :
    ((flagDemoNextBtn.role = "first" ∨ flagDemoNextBtn.role = "back") →
      flagDemoNextBtn.isDisabled = (false || decide (flagDemoPag.page_index = 0))) ∧
    ((flagDemoNextBtn.role = "next" ∨ flagDemoNextBtn.role = "last") →
      flagDemoNextBtn.isDisabled =
        (false || decide ((flagDemoPag.pages.length : Int) - 1 ≤ flagDemoPag.page_index))) ∧
    (false = true → flagDemoNextBtn.isDisabled = true) :=
  create_components_disable_flags flagDemoPag false (nav_buttons flagDemoPag false)
    (by decide) flagDemoNextBtn (by decide)

/-- Claim C9: once stop has cleared the run flag and raised the ping
event of the watchdog, the wait of the watchdog resumes through the ping
(not the timeout), the loop re-checks the run flag and exits performing
zero disable-edits, whatever outcomes might have followed; a stopped
watchdog likewise never edits again on any trace. -/
theorem stop_prevents_second_edit (p : PaginatorState) (t : TimeoutTask)
    (h : p.timeout_task = some t) :
    (stop p).1.timeout_task = some { t with run := false, ping := true } ∧
    (∀ hasMsg rest, timeout_edits hasMsg true (WaitOutcome.pinged false :: rest) = 0) ∧
    (∀ hasMsg tr, timeout_edits hasMsg false tr = 0) := by
  refine ⟨?_, fun hasMsg rest => timeout_edits_ping_stop hasMsg rest,
    fun hasMsg tr => timeout_edits_stopped hasMsg tr⟩
  unfold stop stop_task_update
  rw [h]

/-- Witness for stop_prevents_second_edit at a sent paginator with a
running watchdog. -/
theorem stop_prevents_second_edit_witness :
    (stop runningWatchdogPag).1.timeout_task = some { run := false, ping := true } ∧
    timeout_edits true true [WaitOutcome.pinged false] = 0 ∧
    timeout_edits true false [] = 0 :=
  ⟨(stop_prevents_second_edit runningWatchdogPag {} rfl).1,
   (stop_prevents_second_edit runningWatchdogPag {} rfl).2.1 true [],
   (stop_prevents_second_edit runningWatchdogPag {} rfl).2.2 true []⟩

/-- Claim C2 amended: the routing of _on_button keeps the page list
unchanged and preserves the index invariant on a non-empty paginator for
every role and every authorization outcome, provided that any select
value that parses names an index inside the page range; the source
performs no bounds check of its own on select values, which is why the
proviso (and the accompanying counterexample) is needed. -/
theorem on_button_preserves_index_invariant (p : PaginatorState) (ctx : Ctx)
    (hne : p.pages ≠ []) (h0 : 0 ≤ p.page_index)
    (h1 : p.page_index < (p.pages.length : Int))
    (hsel : ∀ s v, ctx.custom_id.2 = "select" → ctx.values.head? = some s →
      pyInt s = some v → 0 ≤ v ∧ v < (p.pages.length : Int)) :
    (on_button p ctx).1.pages = p.pages ∧
    0 ≤ (on_button p ctx).1.page_index ∧
    (on_button p ctx).1.page_index < ((on_button p ctx).1.pages.length : Int) := by
  unfold on_button
  by_cases hauth : p.author_id = some ctx.author
  · rw [if_pos hauth]
    by_cases hcb : ctx.custom_id.2 = "callback" ∧ (ping_task p).has_callback
    · rw [if_pos hcb]
      exact ⟨rfl, h0, h1⟩
    · rw [if_neg hcb]
      cases hni : nav_index (ping_task p) ctx.custom_id.2 ctx.values with
      | error e => exact ⟨rfl, h0, h1⟩
      | ok i =>
        rw [edit_origin_fst]
        have hrange := nav_index_in_range (ping_task p) ctx.custom_id.2 ctx.values
          hne h0 h1 i hsel hni
        exact ⟨rfl, hrange.1, hrange.2⟩
  · rw [if_neg hauth]
    split_ifs <;> exact ⟨rfl, h0, h1⟩

/-- Witness for on_button_preserves_index_invariant: the owner pressing
next on a two-page paginator. -/
theorem on_button_preserves_index_invariant_witness :
    (on_button twoPagePag nextCtx).1.pages = twoPagePag.pages ∧
    0 ≤ (on_button twoPagePag nextCtx).1.page_index ∧
    (on_button twoPagePag nextCtx).1.page_index <
      ((on_button twoPagePag nextCtx).1.pages.length : Int) :=
  on_button_preserves_index_invariant twoPagePag nextCtx (by decide) (by decide)
    (by decide) (fun s v h _ _ => absurd h (by decide))

/-- Claim C5: an interaction whose author differs from the stored author
id mutates nothing: the state comes back exactly as it was, and the sole
response is an ephemeral reply carrying exactly the wrong user message
when that message is non-empty, or a silent defer in place when it is
empty; the origin message is never edited. -/
theorem wrong_user_no_state_change (p : PaginatorState) (ctx : Ctx)
    (h : p.author_id ≠ some ctx.author) :
    on_button p ctx =
      (p, Except.ok (if p.wrong_user_message = "" then Effect.deferEdit
                     else Effect.ephemeral p.wrong_user_message)) := by
  unfold on_button
  rw [if_neg h]
  split_ifs with hw <;> rfl

/-- Witness for wrong_user_no_state_change: a stranger pressing next on a
paginator owned by author 1 with the default wrong user message. -/
theorem wrong_user_no_state_change_witness :
    on_button twoPagePag strangerCtx =
      (twoPagePag,
        Except.ok (if twoPagePag.wrong_user_message = "" then Effect.deferEdit
                   else Effect.ephemeral twoPagePag.wrong_user_message)) :=
  wrong_user_no_state_change twoPagePag strangerCtx (by decide)

/-- Claim C7: with an empty page list, send and reply fail with a
RenderError, and so does update as soon as a message handle exists (an
unsent paginator fails the update with the StateError of claim C8
instead, which is why that case carries the extra hypothesis). -/
theorem empty_pages_render_error (p : PaginatorState) (mid a : Nat)
    (hp : p.pages = []) :
    send p mid a = Except.error PagError.renderError ∧
    reply p mid a = Except.error PagError.renderError ∧
    (p.message.isSome → update p = Except.error PagError.renderError) := by
  have hre : rendered_embed p = none := by
    unfold rendered_embed
    rw [hp, pyGet_nil]
  have htd : to_dict p = none := by
    unfold to_dict
    rw [hre]
  refine ⟨?_, ?_, ?_⟩
  · unfold send
    rw [htd]
  · unfold reply
    rw [htd]
  · intro hm
    unfold update
    cases hmm : p.message with
    | none => rw [hmm] at hm; cases hm
    | some m => rw [htd]

/-- Witness for empty_pages_render_error at a paginator with no pages
and a live message handle. -/
theorem empty_pages_render_error_witness :
    send emptyPagesPag 1 2 = Except.error PagError.renderError ∧
    reply emptyPagesPag 1 2 = Except.error PagError.renderError ∧
    (emptyPagesPag.message.isSome → update emptyPagesPag = Except.error PagError.renderError) :=
  empty_pages_render_error emptyPagesPag 1 2 (by decide)

/-- Claim C8: invoking stop or update on a paginator that has never been
sent (no message handle) fails with a StateError surfaced to the
caller. -/
theorem unsent_stop_update_state_error (p : PaginatorState)
    (hm : p.message = none) :
    (stop p).2 = Except.error PagError.stateError ∧
    update p = Except.error PagError.stateError := by
  constructor
  · show stop_edit (stop_task_update p) = _
    unfold stop_edit
    rw [stop_task_update_message, hm]
  · unfold update
    rw [hm]

/-- Witness for unsent_stop_update_state_error at a one-page paginator
that was never sent. -/
theorem unsent_stop_update_state_error_witness :
    (stop unsentPag).2 = Except.error PagError.stateError ∧
    update unsentPag = Except.error PagError.stateError :=
  unsent_stop_update_state_error unsentPag (by decide)

/-- Claim C3 amended: a watchdog is started by send exactly when the idle
interval strictly exceeds 1 (so the amended interval is 2, not the 1 of
the claim); the started task has its run flag up and its ping clear, and
a watchdog holding a message whose wait times out with no ping performs
the disable edit exactly once, whatever the rest of the trace. -/
theorem send_watchdog_starts_and_single_edit (p : PaginatorState)
    (mid a : Nat) (st : PaginatorState) (d : Payload)
    (hiv : 1 < p.timeout_interval) (hs : send p mid a = Except.ok (st, d)) :
    st.timeout_task = some { run := true, ping := false } ∧
    (∀ rest, timeout_edits true true (WaitOutcome.timedOut :: rest) = 1) := by
  refine ⟨?_, fun rest => by simp [timeout_edits]⟩
  unfold send at hs
  cases htd : to_dict p with
  | none =>
    rw [htd] at hs
    cases hs
  | some d0 =>
    rw [htd] at hs
    simp only [if_pos hiv, Except.ok.injEq, Prod.mk.injEq] at hs
    rw [← hs.1]

/-- Witness for send_watchdog_starts_and_single_edit: sending a one-page
paginator with interval 2 as message 7 for author 42. -/
theorem send_watchdog_starts_and_single_edit_witness :
    sentIntervalTwoPag.timeout_task = some { run := true, ping := false } ∧
    timeout_edits true true [WaitOutcome.timedOut] = 1 :=
  ⟨(send_watchdog_starts_and_single_edit intervalTwoPag 7 42 sentIntervalTwoPag
      sentIntervalTwoPayload (by decide) (by decide)).1,
   (send_watchdog_starts_and_single_edit intervalTwoPag 7 42 sentIntervalTwoPag
      sentIntervalTwoPayload (by decide) (by decide)).2 []⟩

/-- Claim C10 (code bug): every Timeout instance receives the single
class-level asyncio event as its ping default, so the watchdogs of two
distinct paginators share one ping signal: setting the event through one
watchdog is observed by the wait of the other, resetting its idle
timer. -/
theorem shared_ping_event_cross_wakes (a b : Nat) (st : EventStore) :
    (mkTimeout a).ping = (mkTimeout b).ping ∧
    (st.set (mkTimeout a).ping).isSet (mkTimeout b).ping = true := by
  refine ⟨rfl, ?_⟩
  simp [mkTimeout, EventStore.set]

end NAFF
